import Mathlib

/-!
Shallow embedding of the response-formatting and request-handling layer of
the Revit MCP server (Python sources: `src/tools/utils.py`, `src/main.py`,
`src/revit_mcp/code_execution.py`).

Replies exchanged between the gateway and the host route handlers are
untyped JSON-like values; we model them with the inductive type `Value`.
Python dictionaries are association lists with unique keys; lookups take the
first binding.  Python exceptions (for instance `AttributeError` raised by
calling `.lower()` on a non-string) are modelled with `Except String`.
-/

/-- JSON-like Python value: the payload type of a Reply. -/
inductive Value where
  | str (s : String)
  | int (n : Int)
  | bool (b : Bool)
  | null
  | list (elems : List Value)
  | dict (fields : List (String × Value))

/-- A Python dict, as an association list (first binding wins). -/
abbrev Obj := List (String × Value)

/-- Dictionary lookup, `m[k]` / `k in m`. -/
def lookupV : Obj → String → Option Value
  | [], _ => none
  | (k, v) :: rest, key => if k = key then some v else lookupV rest key

/-- Python `k in m`. -/
def hasKey (m : Obj) (k : String) : Bool := (lookupV m k).isSome

/-- Python `m.get(k, dflt)`. -/
def getD (m : Obj) (k : String) (dflt : Value) : Value := (lookupV m k).getD dflt

/-- Python truthiness (`bool(v)`): empty strings, zero, `False`, `None` and
empty containers are falsy. -/
def truthy : Value → Bool
  | .str s => !s.isEmpty
  | .int n => n != 0
  | .bool b => b
  | .null => false
  | .list xs => !xs.isEmpty
  | .dict ps => !ps.isEmpty

mutual

/-- Python `repr(v)` (close model: strings in single quotes, no escaping). -/
def pyRepr : Value → String
  | .str s => "\x27" ++ s ++ "\x27"
  | .int n => toString n
  | .bool true => "True"
  | .bool false => "False"
  | .null => "None"
  | .list xs => "[" ++ pyReprItems xs ++ "]"
  | .dict ps => "\x7b" ++ pyReprFields ps ++ "\x7d"

/-- Comma-separated reprs of list items. -/
def pyReprItems : List Value → String
  | [] => ""
  | [x] => pyRepr x
  | x :: y :: xs => pyRepr x ++ ", " ++ pyReprItems (y :: xs)

/-- Comma-separated `key: value` reprs of dict fields. -/
def pyReprFields : List (String × Value) → String
  | [] => ""
  | [(k, v)] => "\x27" ++ k ++ "\x27: " ++ pyRepr v
  | (k, v) :: p :: ps => "\x27" ++ k ++ "\x27: " ++ pyRepr v ++ ", " ++ pyReprFields (p :: ps)

end

/-- Python `str(v)`: identity on strings, `repr`-like elsewhere; this is the
semantics of `"{}".format(v)` and of `str(...)` in the sources. -/
def pyStr : Value → String
  | .str s => s
  | .int n => toString n
  | .bool true => "True"
  | .bool false => "False"
  | .null => "None"
  | .list xs => pyRepr (.list xs)
  | .dict ps => pyRepr (.dict ps)

/-- Lower-casing of a string, character by character (Python `s.lower()`
restricted to the ASCII range the replies use). -/
def strLower (s : String) : String := String.mk (s.data.map Char.toLower)

/-- Python `v.lower()`: succeeds only on strings; on any other value the
attribute access raises `AttributeError`. -/
def pyLower (v : Value) : Except String String :=
  match v with
  | .str s => .ok (strLower s)
  | _ => .error "AttributeError: object has no attribute lower"

/-- Characters of Python `s.title()`: the first alphabetic character of every
word is upper-cased, the rest lower-cased; a word restarts after any
non-alphabetic character. -/
def titleChars : List Char → Bool → List Char
  | [], _ => []
  | c :: cs, newWord =>
    if c.isAlpha then (if newWord then c.toUpper else c.toLower) :: titleChars cs false
    else c :: titleChars cs true

/-- Python `s.title()`. -/
def pyTitle (s : String) : String := String.mk (titleChars s.data true)

/-- Python `s.replace("_", " ")` for the field-name pretty-printing. -/
def underscoreToSpace (s : String) : String :=
  String.mk (s.data.map (fun c => if c = '_' then ' ' else c))

/-- Insert a string into an already sorted list (code-point order, as in
Python `sorted`). -/
def insertSorted (x : String) : List String → List String
  | [] => [x]
  | y :: ys => if x < y then x :: y :: ys else y :: insertSorted x ys

/-- Python `sorted` on strings (insertion sort; code-point order). -/
def sortStrings : List String → List String
  | [] => []
  | x :: xs => insertSorted x (sortStrings xs)

/-- Key list of a dict viewed as a set: first occurrences, duplicates
dropped (a real Python dict never has duplicates). -/
def dedupKeys : List String → List String
  | [] => []
  | x :: xs => x :: (dedupKeys xs).filter (fun y => y ≠ x)

/-- Python `"sep".join(parts)` restricted to string parts: raises `TypeError`
when some element is not a string.  `mapStrs` extracts the strings. -/
def mapStrs : List Value → Except String (List String)
  | [] => .ok []
  | .str s :: ps => do
    let rest ← mapStrs ps
    return s :: rest
  | _ :: _ => .error "TypeError: sequence item: expected str instance"

/-- Python `"sep".join(list)` on a list of strings. -/
def joinWith (sep : String) : List String → String
  | [] => ""
  | [x] => x
  | x :: y :: xs => x ++ sep ++ joinWith sep (y :: xs)

/-- Python `sep.join(parts)` over possibly non-string parts. -/
def pyJoin (sep : String) (parts : List Value) : Except String String := do
  let ss ← mapStrs parts
  return joinWith sep ss

/-- Escape of one character inside a JSON string literal. -/
def jsonEscapeChar (c : Char) : String :=
  if c = '\"' then "\\\"" else if c = '\\' then "\\\\" else if c = '\n' then "\\n"
  else if c = '\t' then "\\t" else if c = '\r' then "\\r" else String.singleton c

/-- Escape of a JSON string literal body. -/
def jsonEscape (s : String) : String := String.join (s.data.map jsonEscapeChar)

/-- A run of `n` spaces, for JSON indentation. -/
def spaces (n : Nat) : String := String.mk (List.replicate n ' ')

mutual

/-- Python `json.dumps(v, indent=2)` at current indentation `ind`. -/
def jsonDump (ind : Nat) : Value → String
  | .str s => "\"" ++ jsonEscape s ++ "\""
  | .int n => toString n
  | .bool true => "true"
  | .bool false => "false"
  | .null => "null"
  | .list xs =>
    if xs.isEmpty then "[]"
    else "[\n" ++ jsonDumpItems (ind + 2) xs ++ "\n" ++ spaces ind ++ "]"
  | .dict ps =>
    if ps.isEmpty then "\x7b\x7d"
    else "\x7b\n" ++ jsonDumpFields (ind + 2) ps ++ "\n" ++ spaces ind ++ "\x7d"

/-- Indented, comma-separated dump of array items. -/
def jsonDumpItems (ind : Nat) : List Value → String
  | [] => ""
  | [x] => spaces ind ++ jsonDump ind x
  | x :: y :: xs => spaces ind ++ jsonDump ind x ++ ",\n" ++ jsonDumpItems ind (y :: xs)

/-- Indented, comma-separated dump of object fields. -/
def jsonDumpFields (ind : Nat) : List (String × Value) → String
  | [] => ""
  | [(k, v)] => spaces ind ++ "\"" ++ jsonEscape k ++ "\": " ++ jsonDump ind v
  | (k, v) :: p :: ps =>
    spaces ind ++ "\"" ++ jsonEscape k ++ "\": " ++ jsonDump ind v ++ ",\n" ++
      jsonDumpFields ind (p :: ps)

end

/-- Boolean substring test used to state the "output contains ..." claims. -/
def strContainsAux (pat : List Char) : List Char → Bool
  | [] => pat.isEmpty
  | c :: cs => pat.isPrefixOf (c :: cs) || strContainsAux pat cs

/-- String `pat` occurs somewhere in `s`. -/
def strContains (s pat : String) : Bool := strContainsAux pat.data s.data

/-- String `s` starts with `pat`. -/
def strStartsWith (s pat : String) : Bool := pat.data.isPrefixOf s.data

/-!
Embedding of `format_response` from `src/tools/utils.py`.
-/

/-- Success classification from `src/tools/utils.py` lines 16-22: the local
variable `is_success` computed from `response.get("status", "").lower()` and
`response.get("health", "").lower()`; the `.lower()` calls raise on
non-string values, which `Except` propagates. -/
def is_success (m : Obj) : Except String Bool := do
  let status ← pyLower (getD m "status" (.str ""))
  let health ← pyLower (getD m "health" (.str ""))
  return status == "success" ||
    (status == "active" && health == "healthy") ||
    (status == "active" && hasKey m "revit_available" && truthy (getD m "revit_available" .null))

/-- Fields of the status block that are printed by name
(`known_fields` in `src/tools/utils.py`). -/
def knownStatusFields : List String := ["status", "health", "api_name", "document_title", "revit_available"]

/-- Sorted unrecognized keys of a status reply (`other_fields` in the
source, iterated with `sorted`). -/
def otherStatusFields (m : Obj) : List String :=
  sortStrings ((dedupKeys (m.map Prod.fst)).filter (fun k => !knownStatusFields.contains k))

/-- Lines of the `=== REVIT STATUS ===` block (`status_parts` in the
source); every entry comes out of `"...".format(...)`, hence is a string. -/
def revitStatusParts (m : Obj) : List String :=
  (["=== REVIT STATUS ===",
    "Status: " ++ pyStr (getD m "status" (.str "Unknown")),
    "Health: " ++ pyStr (getD m "health" (.str "Unknown"))]
   ++ (match lookupV m "api_name" with
       | some v => ["API: " ++ pyStr v]
       | none => [])
   ++ (match lookupV m "document_title" with
       | some v => ["Document: " ++ pyStr v]
       | none => [])
   ++ (match lookupV m "revit_available" with
       | some v => ["Revit Available: " ++ pyStr v]
       | none => []))
  ++ (let others := otherStatusFields m
      if others.isEmpty then []
      else "" :: others.map (fun f =>
        pyTitle (underscoreToSpace f) ++ ": " ++ pyStr ((lookupV m f).getD .null)))

/-- Content returned by the success arm of `format_response`
(`src/tools/utils.py` lines 24-58): priority chain
`output` / `message` / `str(result)` / `str(data)` / status block /
`json.dumps(response, indent=2)`.  `status` is the lower-cased status. -/
def successContent (m : Obj) (status : String) : Value :=
  match lookupV m "output" with
  | some v => v
  | none =>
    match lookupV m "message" with
    | some v => v
    | none =>
      match lookupV m "result" with
      | some v => .str (pyStr v)
      | none =>
        match lookupV m "data" with
        | some v => .str (pyStr v)
        | none =>
          if status == "active" then .str (joinWith "\n" (revitStatusParts m))
          else .str (jsonDump 0 (.dict m))

/-- Debug fields appended to an error block when present
(`debug_fields` in the source). -/
def debugFields : List String := ["code_attempted", "endpoint", "request_data", "response_code"]

/-- Keys that the error arm prints specially; the rest go to the
`=== ADDITIONAL RESPONSE DATA ===` section (`response_keys` subtraction
in the source). -/
def errorKnownKeys : List String :=
  ["error", "traceback", "details", "status", "code_attempted", "endpoint", "request_data", "response_code"]

/-- Sorted unrecognized keys of an error reply. -/
def extraErrorKeys (m : Obj) : List String :=
  sortStrings ((dedupKeys (m.map Prod.fst)).filter (fun k => !errorKnownKeys.contains k))

/-- Entries of `error_parts` (`src/tools/utils.py` lines 59-90).  All
entries are built by `"...".format(...)` except the raw `traceback_info`
value, which the source appends unconverted. -/
def errorParts (m : Obj) : List Value :=
  let error_msg := getD m "error" (.str "Unknown error occurred")
  let traceback_info := getD m "traceback" (.str "")
  let details := getD m "details" (.str "")
  let statusRaw := getD m "status" (.str "unknown")
  [Value.str "=== ERROR DETAILS ===",
   Value.str ("Status: " ++ pyStr statusRaw),
   Value.str ("Error: " ++ pyStr error_msg)]
  ++ (if truthy details then [Value.str ("Details: " ++ pyStr details)] else [])
  ++ (if truthy traceback_info then [Value.str "\n=== TRACEBACK ===", traceback_info] else [])
  ++ debugFields.filterMap (fun f =>
       (lookupV m f).map (fun v => Value.str (pyTitle (underscoreToSpace f) ++ ": " ++ pyStr v)))
  ++ (let extras := extraErrorKeys m
      if extras.isEmpty then []
      else Value.str "\n=== ADDITIONAL RESPONSE DATA ===" ::
        extras.map (fun k => Value.str (k ++ ": " ++ pyStr ((lookupV m k).getD .null))))

/-- Error arm of `format_response`: `"\n".join(error_parts)`; the join
raises `TypeError` when a truthy non-string traceback value was appended. -/
def formatError (m : Obj) : Except String Value := do
  let s ← pyJoin "\n" (errorParts m)
  return .str s

/-- Embedding of `format_response` (`src/tools/utils.py`).  A dict reply is
classified by `is_success` and dispatched to the success or error arm; any
other reply is returned through `str(response)`. -/
def format_response (response : Value) : Except String Value :=
  match response with
  | .dict m => do
    let status ← pyLower (getD m "status" (.str ""))
    let health ← pyLower (getD m "health" (.str ""))
    if status == "success" ||
       (status == "active" && health == "healthy") ||
       (status == "active" && hasKey m "revit_available" && truthy (getD m "revit_available" .null)) then
      .ok (successContent m status)
    else
      formatError m
  | other => .ok (.str (pyStr other))

/-!
Embedding of the gateway helper `_revit_call` from `src/main.py` and of the
code-execution route handler from `src/revit_mcp/code_execution.py`.
-/

/-- Outcome of the HTTP exchange attempted inside `_revit_call`: either a
response (status code, body text, and the result of parsing the body as
JSON, which `response.json()` needs) or a transport-level exception with
its `str(e)` text. -/
inductive HttpOutcome where
  | response (statusCode : Nat) (text : String) (jsonBody : Except String Value)
  | exn (message : String)

/-- Embedding of `_revit_call` (`src/main.py` lines 51-65): on status 200
return `response.json()`, otherwise the `"Error: <status> - <body>"`
string; every exception inside the `try` (transport failure or JSON decode
failure) is caught and turned into `"Error: <exception text>"`. -/
def revit_call : HttpOutcome → Value
  | .exn e => .str ("Error: " ++ e)
  | .response statusCode text jsonBody =>
    if statusCode = 200 then
      match jsonBody with
      | .ok v => v
      | .error e => .str ("Error: " ++ e)
    else .str ("Error: " ++ toString statusCode ++ " - " ++ text)

/-- Outcome of `exec(code_to_execute, namespace)` together with the text
captured from stdout during the run. -/
inductive ExecResult where
  | ok (captured : String)
  | raises (message : String)

/-- Observable events on the Revit document transaction and the executed
script, in the order the handler performs them. -/
inductive TxEvent where
  | txStart
  | execCode
  | txCommit
  | txRollBack
deriving DecidableEq

/-- Reply of the `/execute_code/` route: response body, HTTP status
(`routes.make_response` defaults to 200), and the transaction/exec event
trace. -/
structure ExecReply where
  body : Value
  httpStatus : Nat
  events : List TxEvent

/-- Sentinel returned when the executed code printed nothing
(`src/revit_mcp/code_execution.py` line 95). -/
def sentinelNoOutput : String := "Code executed successfully (no output)"

/-- Model of Python `traceback.format_exc()`: a non-empty trace header
followed by the exception text. -/
def format_exc (message : String) : String :=
  "Traceback (most recent call last):\n" ++ message

/-- Embedding of the `/execute_code/` handler `execute_code`
(`src/revit_mcp/code_execution.py` lines 21-123).  The parsed JSON payload
is `data`; the behaviour of `exec` on the submitted code is the `outcome`
parameter.  With falsy code the handler answers 400 before any transaction
exists; otherwise it starts a transaction, runs the code, and commits on
success or rolls back on exception (the rollback guard
`t.HasStarted() and not t.HasEnded()` holds there, since `Start` succeeded
and no `Commit` ran). -/
def execute_code (data : Obj) (outcome : ExecResult) : ExecReply :=
  let code := getD data "code" (.str "")
  let description := getD data "description" (.str "Code execution")
  if !truthy code then
    { body := .dict [("error", .str "No code provided")], httpStatus := 400, events := [] }
  else
    match outcome with
    | .ok captured =>
      { body := .dict
          [("status", .str "success"),
           ("description", description),
           ("output", .str (if captured = "" then sentinelNoOutput else captured)),
           ("code_executed", code)],
        httpStatus := 200,
        events := [.txStart, .execCode, .txCommit] }
    | .raises message =>
      { body := .dict
          [("status", .str "error"),
           ("error", .str message),
           ("traceback", .str (format_exc message)),
           ("code_attempted", code)],
        httpStatus := 500,
        events := [.txStart, .execCode, .txRollBack] }

/-!
Specification-worded definitions, used only to compare the spec text with
the code (refinement / counterexample statements).
-/

/-- Value equals a given string literally (no lower-casing). -/
def isStrVal (v : Value) (s : String) : Bool :=
  match v with
  | .str t => t == s
  | _ => false

/-- Success condition as the specification words it: literal comparisons
`status == "success"`, `status == "active"`, `health == "healthy"` on the
raw field values, with absent status/health read as the empty string. -/
def specSuccessCond (m : Obj) : Bool :=
  let status := getD m "status" (.str "")
  let health := getD m "health" (.str "")
  isStrVal status "success" ||
  (isStrVal status "active" && isStrVal health "healthy") ||
  (isStrVal status "active" && hasKey m "revit_available" && truthy (getD m "revit_available" .null))

/-- The key, when present, holds a string (so `.lower()` cannot raise on
it). -/
def strOrAbsent (m : Obj) (k : String) : Bool :=
  match lookupV m k with
  | some (.str _) => true
  | some _ => false
  | none => true

/-- Total lower-casing of a field value, meaningful on mappings where the
field is a string or absent. -/
def lowerStr (v : Value) : String :=
  match v with
  | .str s => strLower s
  | _ => ""

/-- Success condition amended to match the code: the comparisons are made
on the lower-cased status/health. -/
def amendedSuccessCond (m : Obj) : Bool :=
  let status := lowerStr (getD m "status" (.str ""))
  let health := lowerStr (getD m "health" (.str ""))
  status == "success" ||
  (status == "active" && health == "healthy") ||
  (status == "active" && hasKey m "revit_available" && truthy (getD m "revit_available" .null))

/-!
Helper lemmas shared by the claim theorems.
-/

/-- A list is a `isPrefixOf` of itself followed by anything. -/
theorem isPrefixOf_append_self (l t : List Char) : l.isPrefixOf (l ++ t) = true := by
  induction l with
  | nil => simp [List.isPrefixOf]
  | cons c cs ih => simp [List.isPrefixOf, ih]

/-- A string starts with itself followed by anything. -/
theorem strStartsWith_append_self (s t : String) : strStartsWith (s ++ t) s = true := by
  show s.data.isPrefixOf (s ++ t).data = true
  rw [String.data_append]
  exact isPrefixOf_append_self s.data t.data

/-- Joining a non-empty list of lines starts with the first line. -/
theorem strStartsWith_joinWith (x : String) (rest : List String) :
    strStartsWith (joinWith "\n" (x :: rest)) x = true := by
  cases rest with
  | nil =>
    have h : joinWith "\n" [x] = x ++ "" := by simp [joinWith]
    rw [h]
    exact strStartsWith_append_self x ""
  | cons y ys =>
    have h : joinWith "\n" (x :: y :: ys) = x ++ ("\n" ++ joinWith "\n" (y :: ys)) := by
      simp [joinWith, String.append_assoc]
    rw [h]
    exact strStartsWith_append_self x ("\n" ++ joinWith "\n" (y :: ys))

/-- When every part is a string, the `join` extraction succeeds. -/
theorem mapStrs_ok (l : List Value) (h : ∀ p ∈ l, ∃ s, p = Value.str s) :
    ∃ ss, mapStrs l = .ok ss := by
  induction l with
  | nil => exact ⟨[], rfl⟩
  | cons p ps ih =>
    obtain ⟨s, rfl⟩ := h p (List.mem_cons_self p ps)
    obtain ⟨ss, hss⟩ := ih (fun q hq => h q (List.mem_cons_of_mem _ hq))
    exact ⟨s :: ss, by simp [mapStrs, hss]⟩

/-- The model of `traceback.format_exc` never returns the empty string. -/
theorem format_exc_ne_empty (s : String) : format_exc s ≠ "" := by
  intro h
  have hd := congrArg String.data h
  rw [format_exc, String.data_append] at hd
  simp at hd

/-- Unfolding of `is_success` when both `.lower()` calls succeed. -/
theorem is_success_eq (m : Obj) (st hl : String)
    (hs : pyLower (getD m "status" (.str "")) = .ok st)
    (hh : pyLower (getD m "health" (.str "")) = .ok hl) :
    is_success m = .ok (st == "success" || (st == "active" && hl == "healthy") ||
      (st == "active" && hasKey m "revit_available" && truthy (getD m "revit_available" .null))) := by
  simp only [is_success]
  rw [hs, hh]
  rfl

/-- A successful `is_success` forces both `.lower()` calls to succeed. -/
theorem is_success_ok_elim (m : Obj) (b : Bool) (h : is_success m = .ok b) :
    ∃ st hl, pyLower (getD m "status" (.str "")) = .ok st ∧
      pyLower (getD m "health" (.str "")) = .ok hl ∧
      b = (st == "success" || (st == "active" && hl == "healthy") ||
        (st == "active" && hasKey m "revit_available" && truthy (getD m "revit_available" .null))) := by
  cases hs : pyLower (getD m "status" (.str "")) with
  | error e =>
    simp only [is_success] at h
    rw [hs] at h
    exact Except.noConfusion (show Except.error e = Except.ok b from h)
  | ok st =>
    cases hh : pyLower (getD m "health" (.str "")) with
    | error e =>
      simp only [is_success] at h
      rw [hs, hh] at h
      exact Except.noConfusion (show Except.error e = Except.ok b from h)
    | ok hl =>
      refine ⟨st, hl, rfl, rfl, ?_⟩
      rw [is_success_eq m st hl hs hh] at h
      exact (Except.ok.inj h).symm

/-- Branch structure of `format_response` on a dict when both `.lower()`
calls succeed. -/
theorem format_response_dict_eq (m : Obj) (st hl : String)
    (hs : pyLower (getD m "status" (.str "")) = .ok st)
    (hh : pyLower (getD m "health" (.str "")) = .ok hl) :
    format_response (.dict m) =
      if st == "success" || (st == "active" && hl == "healthy") ||
         (st == "active" && hasKey m "revit_available" && truthy (getD m "revit_available" .null))
      then .ok (successContent m st) else formatError m := by
  simp only [format_response]
  rw [hs, hh]
  rfl

/-!
Claim theorems.
-/

/-- C4: for every Reply that is a string S, `format_response S = S`: the
string is returned verbatim (through `str(response)`, identity on
strings). -/
theorem format_response_string_id (s : String) : format_response (.str s) = .ok (.str s) := rfl

/-- C6: the gateway helper `_revit_call` never propagates an exception; it
returns the parsed JSON body when the HTTP status is 200, the string
`"Error: <status> - <body>"` for every non-200 response (so `(503,
"unavailable")` yields exactly `"Error: 503 - unavailable"`), and for every
transport-level exception (including a JSON decode failure of a 200 body) a
string that is `"Error: "` followed by the exception text. -/
theorem revit_call_behaviour :
    (∀ (text : String) (j : Value), revit_call (.response 200 text (.ok j)) = j) ∧
    (∀ (statusCode : Nat) (text : String) (jsonBody : Except String Value), statusCode ≠ 200 →
      revit_call (.response statusCode text jsonBody) =
        .str ("Error: " ++ toString statusCode ++ " - " ++ text)) ∧
    (∀ jsonBody : Except String Value,
      revit_call (.response 503 "unavailable" jsonBody) = .str "Error: 503 - unavailable") ∧
    (∀ e : String, revit_call (.exn e) = .str ("Error: " ++ e) ∧
      strStartsWith (pyStr (revit_call (.exn e))) "Error: " = true) ∧
    (∀ (text e : String), revit_call (.response 200 text (.error e)) = .str ("Error: " ++ e)) := by
  refine ⟨fun t j => rfl, fun s t jb h => ?_, fun jb => rfl,
    fun e => ⟨rfl, strStartsWith_append_self "Error: " e⟩, fun t e => rfl⟩
  simp [revit_call, h]

/-- Witness for C6 at the concrete non-200 response `(503, "unavailable")`. -/
theorem revit_call_behaviour_witness :
    revit_call (.response 503 "unavailable" (.ok Value.null)) =
      .str ("Error: " ++ toString (503 : Nat) ++ " - " ++ "unavailable") :=
  revit_call_behaviour.2.1 503 "unavailable" (.ok Value.null) (by decide)

/-- C10 (code bug): `format_response` is documented to return a string, but
the success arm returns the raw `response["output"]` value: on the mapping
`{"status": "success", "output": 42}` it returns the integer 42, not a
string. -/
theorem format_response_output_not_str :
    format_response (.dict [("status", Value.str "success"), ("output", Value.int 42)]) =
      .ok (.int 42) ∧
    ∀ s : String,
      format_response (.dict [("status", Value.str "success"), ("output", Value.int 42)]) ≠
        .ok (.str s) := by
  refine ⟨rfl, fun s h => ?_⟩
  have h2 : Except.ok (ε := String) (Value.int 42) = Except.ok (Value.str s) := h
  injection h2 with h3
  exact Value.noConfusion h3

/-- C9: a payload whose `code` entry is missing or the empty string gets the
reply `{"error": "No code provided"}` with HTTP 400, and no transaction is
ever started. -/
theorem execute_code_missing_code (data : Obj) (outcome : ExecResult)
    (h : lookupV data "code" = none ∨ lookupV data "code" = some (.str "")) :
    execute_code data outcome =
      { body := .dict [("error", .str "No code provided")], httpStatus := 400, events := [] } ∧
    TxEvent.txStart ∉ (execute_code data outcome).events := by
  have hc : truthy (getD data "code" (.str "")) = false := by
    unfold getD
    rcases h with h | h <;> rw [h] <;> decide
  have hq : execute_code data outcome =
      { body := .dict [("error", .str "No code provided")], httpStatus := 400, events := [] } := by
    simp only [execute_code]
    rw [hc]
    rfl
  exact ⟨hq, by rw [hq]; simp⟩

/-- Witness for C9 at the concrete empty payload. -/
theorem execute_code_missing_code_witness :
    execute_code [] (ExecResult.ok "") =
      { body := .dict [("error", .str "No code provided")], httpStatus := 400, events := [] } :=
  (execute_code_missing_code [] (ExecResult.ok "") (Or.inl rfl)).1

/-- C7: with non-empty code the handler starts a transaction before the
`exec`, commits it when the code ran, and rolls it back when the code
raised; in the raising case the reply carries status `"error"`, a non-empty
traceback, and HTTP status 500. -/
theorem execute_code_atomicity (data : Obj) (captured message : String)
    (h : truthy (getD data "code" (.str "")) = true) :
    (execute_code data (.ok captured)).events =
      [TxEvent.txStart, TxEvent.execCode, TxEvent.txCommit] ∧
    (execute_code data (.raises message)).events =
      [TxEvent.txStart, TxEvent.execCode, TxEvent.txRollBack] ∧
    (∃ flds, (execute_code data (.raises message)).body = Value.dict flds ∧
      lookupV flds "status" = some (.str "error") ∧
      ∃ tb, lookupV flds "traceback" = some (.str tb) ∧ tb ≠ "") ∧
    (execute_code data (.raises message)).httpStatus = 500 := by
  have h1 : execute_code data (.ok captured) =
      { body := .dict
          [("status", .str "success"),
           ("description", getD data "description" (.str "Code execution")),
           ("output", .str (if captured = "" then sentinelNoOutput else captured)),
           ("code_executed", getD data "code" (.str ""))],
        httpStatus := 200,
        events := [.txStart, .execCode, .txCommit] } := by
    simp only [execute_code]
    rw [h]
    rfl
  have h2 : execute_code data (.raises message) =
      { body := .dict
          [("status", .str "error"),
           ("error", .str message),
           ("traceback", .str (format_exc message)),
           ("code_attempted", getD data "code" (.str ""))],
        httpStatus := 500,
        events := [.txStart, .execCode, .txRollBack] } := by
    simp only [execute_code]
    rw [h]
    rfl
  refine ⟨by rw [h1], by rw [h2],
    ⟨[("status", .str "error"), ("error", .str message),
      ("traceback", .str (format_exc message)), ("code_attempted", getD data "code" (.str ""))],
      by rw [h2], rfl, ⟨format_exc message, rfl, format_exc_ne_empty message⟩⟩, by rw [h2]⟩

/-- Witness for C7 at a concrete payload and a raising execution. -/
theorem execute_code_atomicity_witness :
    (execute_code [("code", Value.str "1/0")] (ExecResult.raises "boom")).httpStatus = 500 :=
  (execute_code_atomicity [("code", Value.str "1/0")] "" "boom" (by decide)).2.2.2

/-- C8: a run that raised nothing answers status `"success"`; the `output`
field is the captured text when there was any, else the fixed sentinel
`"Code executed successfully (no output)"`. -/
theorem execute_code_output_sentinel (data : Obj) (captured : String)
    (h : truthy (getD data "code" (.str "")) = true) :
    ∃ flds, (execute_code data (.ok captured)).body = Value.dict flds ∧
      lookupV flds "status" = some (.str "success") ∧
      (captured = "" → lookupV flds "output" = some (.str sentinelNoOutput)) ∧
      (captured ≠ "" → lookupV flds "output" = some (.str captured)) ∧
      (execute_code data (.ok captured)).httpStatus = 200 := by
  have h1 : execute_code data (.ok captured) =
      { body := .dict
          [("status", .str "success"),
           ("description", getD data "description" (.str "Code execution")),
           ("output", .str (if captured = "" then sentinelNoOutput else captured)),
           ("code_executed", getD data "code" (.str ""))],
        httpStatus := 200,
        events := [.txStart, .execCode, .txCommit] } := by
    simp only [execute_code]
    rw [h]
    rfl
  refine ⟨[("status", .str "success"),
      ("description", getD data "description" (.str "Code execution")),
      ("output", .str (if captured = "" then sentinelNoOutput else captured)),
      ("code_executed", getD data "code" (.str ""))],
    by rw [h1], rfl, fun hc => ?_, fun hc => ?_, by rw [h1]⟩
  · simp [lookupV, hc]
  · simp [lookupV, hc]

/-- Witness for C8 at a concrete payload with no captured output. -/
theorem execute_code_output_sentinel_witness :
    ∃ flds, (execute_code [("code", Value.str "pass")] (ExecResult.ok "")).body = Value.dict flds ∧
      lookupV flds "status" = some (.str "success") ∧
      ("" = "" → lookupV flds "output" = some (.str sentinelNoOutput)) ∧
      ("" ≠ "" → lookupV flds "output" = some (.str "")) ∧
      (execute_code [("code", Value.str "pass")] (ExecResult.ok "")).httpStatus = 200 :=
  execute_code_output_sentinel [("code", Value.str "pass")] "" (by decide)

/-- Under `strOrAbsent`, a `get` with a string default yields a string. -/
theorem getD_str_of_strOrAbsent (m : Obj) (k d : String) (h : strOrAbsent m k = true) :
    ∃ s, getD m k (.str d) = .str s := by
  unfold strOrAbsent at h
  cases hl : lookupV m k with
  | none => exact ⟨d, by unfold getD; rw [hl]; rfl⟩
  | some v =>
    rw [hl] at h
    cases v with
    | str s => exact ⟨s, by unfold getD; rw [hl]; rfl⟩
    | int n => exact Bool.noConfusion h
    | bool b => exact Bool.noConfusion h
    | null => exact Bool.noConfusion h
    | list l => exact Bool.noConfusion h
    | dict ps => exact Bool.noConfusion h

/-- C1 (amended): on mappings whose status/health values, when present, are
strings, `format_response` selects the success branch if and only if the
lower-cased status is `"success"`, or the lower-cased status is `"active"`
and the lower-cased health is `"healthy"`, or the lower-cased status is
`"active"` and `revit_available` is present and truthy (absent
status/health read as the empty string).  The code lower-cases both fields
before comparing; the spec's literal comparison is refuted by
`is_success_spec_divergence`. -/
theorem is_success_characterization (m : Obj)
    (hst : strOrAbsent m "status" = true) (hhl : strOrAbsent m "health" = true) :
    (is_success m = .ok true ↔ amendedSuccessCond m = true) ∧
    format_response (.dict m) =
      (if amendedSuccessCond m
       then .ok (successContent m (lowerStr (getD m "status" (.str ""))))
       else formatError m) := by
  obtain ⟨s, hs⟩ := getD_str_of_strOrAbsent m "status" "" hst
  obtain ⟨t, ht⟩ := getD_str_of_strOrAbsent m "health" "" hhl
  have hps : pyLower (getD m "status" (.str "")) = .ok (strLower s) := by rw [hs]; rfl
  have hpt : pyLower (getD m "health" (.str "")) = .ok (strLower t) := by rw [ht]; rfl
  have hamended : amendedSuccessCond m =
      (strLower s == "success" || (strLower s == "active" && strLower t == "healthy") ||
       (strLower s == "active" && hasKey m "revit_available" &&
         truthy (getD m "revit_available" .null))) := by
    simp only [amendedSuccessCond]
    rw [hs, ht]
    rfl
  constructor
  · rw [is_success_eq m (strLower s) (strLower t) hps hpt, hamended]
    simp
  · rw [format_response_dict_eq m (strLower s) (strLower t) hps hpt, hamended, hs]
    rfl

/-- Witness for C1 at the concrete active/healthy status mapping. -/
theorem is_success_characterization_witness :
    (is_success [("status", Value.str "active"), ("health", Value.str "healthy")] = .ok true ↔
      amendedSuccessCond [("status", Value.str "active"), ("health", Value.str "healthy")] = true) ∧
    format_response (.dict [("status", Value.str "active"), ("health", Value.str "healthy")]) =
      (if amendedSuccessCond [("status", Value.str "active"), ("health", Value.str "healthy")]
       then .ok (successContent [("status", Value.str "active"), ("health", Value.str "healthy")]
         (lowerStr (getD [("status", Value.str "active"), ("health", Value.str "healthy")]
           "status" (.str ""))))
       else formatError [("status", Value.str "active"), ("health", Value.str "healthy")]) :=
  is_success_characterization _ rfl rfl

/-- Counterexample to C1 as stated: on `{"status": "SUCCESS"}` the code
classifies the reply as success (it compares the lower-cased status), while
the spec's literal condition `status == "success"` is false; the reply is
formatted by the success arm (JSON dump), not as an error block. -/
theorem is_success_spec_divergence :
    is_success [("status", Value.str "SUCCESS")] = .ok true ∧
    specSuccessCond [("status", Value.str "SUCCESS")] = false ∧
    format_response (.dict [("status", Value.str "SUCCESS")]) =
      .ok (.str (jsonDump 0 (.dict [("status", Value.str "SUCCESS")]))) :=
  ⟨rfl, rfl, rfl⟩

/-- Condition under which the formatter cannot raise: status and health
are strings when present, and a truthy traceback value is a string. -/
def formatTotalCond : Value → Prop
  | .dict m => strOrAbsent m "status" = true ∧ strOrAbsent m "health" = true ∧
      (truthy (getD m "traceback" (.str "")) = true →
        ∃ s, getD m "traceback" (.str "") = Value.str s)
  | _ => True

/-- Every entry of `error_parts` is a string, provided a truthy traceback
value is one. -/
theorem errorParts_allStr (m : Obj)
    (htb : truthy (getD m "traceback" (.str "")) = true →
      ∃ s, getD m "traceback" (.str "") = Value.str s) :
    ∀ p ∈ errorParts m, ∃ s, p = Value.str s := by
  intro p hp
  cases hd : truthy (getD m "details" (.str "")) <;>
  cases ht : truthy (getD m "traceback" (.str "")) <;>
  cases hext : (extraErrorKeys m).isEmpty <;>
  · simp only [errorParts, hd, ht, hext, Bool.false_eq_true, if_true, if_false,
      ite_true, ite_false, List.mem_append, List.mem_cons, List.mem_filterMap,
      List.not_mem_nil, List.mem_map, or_false, false_or] at hp
    first
    | (obtain ⟨ts, hts⟩ := htb ht
       rw [hts] at hp
       aesop)
    | aesop

/-- The error arm always joins successfully when a truthy traceback is a
string. -/
theorem formatError_ok (m : Obj)
    (htb : truthy (getD m "traceback" (.str "")) = true →
      ∃ s, getD m "traceback" (.str "") = Value.str s) :
    ∃ out, formatError m = .ok (.str out) := by
  obtain ⟨ss, hss⟩ := mapStrs_ok (errorParts m) (errorParts_allStr m htb)
  exact ⟨joinWith "\n" ss, by simp [formatError, pyJoin, hss]⟩

/-- C3 (amended): `format_response` returns normally on every string Reply
and on every mapping whose status and health values, when present, are
strings and whose traceback value, when truthy, is a string; absent fields
are read through defaults, never raising.  (On a non-string status or
health the unconditional `.lower()` raises `AttributeError`, and a truthy
non-string traceback makes the error arm's `"\n".join` raise `TypeError`;
see `format_response_raises_cx`.) -/
theorem format_response_total (v : Value) (h : formatTotalCond v) :
    ∃ r, format_response v = .ok r := by
  cases v with
  | dict m =>
    obtain ⟨hst, hhl, htb⟩ := h
    obtain ⟨s, hs⟩ := getD_str_of_strOrAbsent m "status" "" hst
    obtain ⟨t, ht⟩ := getD_str_of_strOrAbsent m "health" "" hhl
    have hps : pyLower (getD m "status" (.str "")) = .ok (strLower s) := by rw [hs]; rfl
    have hpt : pyLower (getD m "health" (.str "")) = .ok (strLower t) := by rw [ht]; rfl
    rw [format_response_dict_eq m (strLower s) (strLower t) hps hpt]
    by_cases hb : (strLower s == "success" ||
        (strLower s == "active" && strLower t == "healthy") ||
        (strLower s == "active" && hasKey m "revit_available" &&
          truthy (getD m "revit_available" .null))) = true
    · rw [if_pos hb]
      exact ⟨successContent m (strLower s), rfl⟩
    · rw [if_neg hb]
      obtain ⟨out, hout⟩ := formatError_ok m htb
      exact ⟨.str out, hout⟩
  | str s => exact ⟨.str s, rfl⟩
  | int n => exact ⟨.str (pyStr (.int n)), rfl⟩
  | bool b => exact ⟨.str (pyStr (.bool b)), rfl⟩
  | null => exact ⟨.str (pyStr .null), rfl⟩
  | list xs => exact ⟨.str (pyStr (.list xs)), rfl⟩

/-- Witness for C3 at a concrete error mapping. -/
theorem format_response_total_witness :
    ∃ r, format_response (.dict [("status", Value.str "error")]) = .ok r :=
  format_response_total _ ⟨rfl, rfl, fun h => Bool.noConfusion h⟩

/-- Counterexample to C3 as stated: on the mapping `{"status": 1}` the
unconditional `response.get("status", "").lower()` raises
`AttributeError`, so `format_response` does not return normally for
arbitrarily-valued keys. -/
theorem format_response_raises_cx :
    format_response (.dict [("status", Value.int 1)]) =
      .error "AttributeError: object has no attribute lower" := rfl

/-- C5 (amended): on every mapping classified as failure (with a truthy
traceback value that is a string), the formatter renders the fixed error
block: a `=== ERROR DETAILS ===` header first, a Status line and an Error
line, a Details line when `details` is present AND truthy, a
`=== TRACEBACK ===` section when `traceback` is present AND truthy, a
title-cased line per present debug field, and the remaining unrecognized
keys under the additional-data heading; the concrete
status/error/traceback mapping of the spec renders as required.  (Mere
presence of a falsy `details`/`traceback` does not print them; see
`error_block_details_cx`.) -/
theorem error_block_structure :
    (∀ m : Obj,
      is_success m = .ok false →
      (truthy (getD m "traceback" (.str "")) = true →
        ∃ s, getD m "traceback" (.str "") = Value.str s) →
      (∃ out, format_response (.dict m) = .ok (.str out) ∧
        formatError m = .ok (.str out)) ∧
      (errorParts m).head? = some (.str "=== ERROR DETAILS ===") ∧
      Value.str ("Status: " ++ pyStr (getD m "status" (.str "unknown"))) ∈ errorParts m ∧
      Value.str ("Error: " ++ pyStr (getD m "error" (.str "Unknown error occurred"))) ∈ errorParts m ∧
      (truthy (getD m "details" (.str "")) = true →
        Value.str ("Details: " ++ pyStr (getD m "details" (.str ""))) ∈ errorParts m) ∧
      (truthy (getD m "traceback" (.str "")) = true →
        Value.str "\n=== TRACEBACK ===" ∈ errorParts m ∧
        getD m "traceback" (.str "") ∈ errorParts m) ∧
      (∀ f, f ∈ debugFields → ∀ v, lookupV m f = some v →
        Value.str (pyTitle (underscoreToSpace f) ++ ": " ++ pyStr v) ∈ errorParts m) ∧
      (∀ k, k ∈ extraErrorKeys m →
        Value.str "\n=== ADDITIONAL RESPONSE DATA ===" ∈ errorParts m ∧
        Value.str (k ++ ": " ++ pyStr ((lookupV m k).getD .null)) ∈ errorParts m)) ∧
    (format_response
        (.dict [("status", Value.str "error"), ("error", Value.str "boom"),
                ("traceback", Value.str "tb")]) =
      .ok (.str "=== ERROR DETAILS ===\nStatus: error\nError: boom\n\n=== TRACEBACK ===\ntb") ∧
     strContains "=== ERROR DETAILS ===\nStatus: error\nError: boom\n\n=== TRACEBACK ===\ntb"
       "=== ERROR DETAILS ===" = true ∧
     strContains "=== ERROR DETAILS ===\nStatus: error\nError: boom\n\n=== TRACEBACK ===\ntb"
       "Error: boom" = true ∧
     strContains "=== ERROR DETAILS ===\nStatus: error\nError: boom\n\n=== TRACEBACK ===\ntb"
       "=== TRACEBACK ===" = true ∧
     strContains "=== ERROR DETAILS ===\nStatus: error\nError: boom\n\n=== TRACEBACK ===\ntb"
       "tb" = true) := by
  constructor
  · intro m hfail htb
    obtain ⟨st, hl, hs, hh, hb⟩ := is_success_ok_elim m false hfail
    have hfr : format_response (.dict m) = formatError m := by
      rw [format_response_dict_eq m st hl hs hh, if_neg]
      rw [← hb]
      exact Bool.false_ne_true
    refine ⟨?_, rfl, ?_, ?_, fun hd => ?_, fun ht => ⟨?_, ?_⟩, fun f hf v hv => ?_,
      fun k hk => ⟨?_, ?_⟩⟩
    · obtain ⟨out, hout⟩ := formatError_ok m htb
      exact ⟨out, by rw [hfr, hout], hout⟩
    · simp only [errorParts]
      exact List.mem_append_left _ (List.mem_append_left _ (List.mem_append_left _
        (List.mem_append_left _ (List.mem_cons_of_mem _ (List.mem_cons_self _ _)))))
    · simp only [errorParts]
      exact List.mem_append_left _ (List.mem_append_left _ (List.mem_append_left _
        (List.mem_append_left _ (List.mem_cons_of_mem _ (List.mem_cons_of_mem _
          (List.mem_cons_self _ _))))))
    · simp only [errorParts, hd, ite_true]
      exact List.mem_append_left _ (List.mem_append_left _ (List.mem_append_left _
        (List.mem_append_right _ (List.mem_cons_self _ _))))
    · simp only [errorParts, ht, ite_true]
      exact List.mem_append_left _ (List.mem_append_left _ (List.mem_append_right _
        (List.mem_cons_self _ _)))
    · simp only [errorParts, ht, ite_true]
      exact List.mem_append_left _ (List.mem_append_left _ (List.mem_append_right _
        (List.mem_cons_of_mem _ (List.mem_cons_self _ _))))
    · have hmem : Value.str (pyTitle (underscoreToSpace f) ++ ": " ++ pyStr v) ∈
          debugFields.filterMap (fun f =>
            (lookupV m f).map (fun v =>
              Value.str (pyTitle (underscoreToSpace f) ++ ": " ++ pyStr v))) :=
        List.mem_filterMap.mpr ⟨f, hf, by rw [hv]; rfl⟩
      simp only [errorParts]
      exact List.mem_append_left _ (List.mem_append_right _ hmem)
    · have hext : (extraErrorKeys m).isEmpty = false := by
        cases hh2 : (extraErrorKeys m).isEmpty
        · rfl
        · rw [List.isEmpty_iff.mp hh2] at hk
          cases hk
      simp only [errorParts]
      rw [hext, if_neg Bool.false_ne_true]
      exact List.mem_append_right _ (List.mem_cons_self _ _)
    · have hext : (extraErrorKeys m).isEmpty = false := by
        cases hh2 : (extraErrorKeys m).isEmpty
        · rfl
        · rw [List.isEmpty_iff.mp hh2] at hk
          cases hk
      simp only [errorParts]
      rw [hext, if_neg Bool.false_ne_true]
      exact List.mem_append_right _ (List.mem_cons_of_mem _ (List.mem_map.mpr ⟨k, hk, rfl⟩))
  · exact ⟨rfl, rfl, rfl, rfl, rfl⟩

/-- Witness for C5: the Status line of a concrete failure mapping is in
its error block. -/
theorem error_block_structure_witness :
    Value.str ("Status: " ++ pyStr (getD [("status", Value.str "error")] "status" (.str "unknown")))
      ∈ errorParts [("status", Value.str "error")] :=
  (error_block_structure.1 [("status", Value.str "error")] rfl
    (fun h => Bool.noConfusion h)).2.2.1

/-- Counterexample to C5 as stated: `details` present but empty (falsy) is
not printed — the error block of `{"status": "error", "details": ""}`
contains no Details line although `details` is present. -/
theorem error_block_details_cx :
    lookupV [("status", Value.str "error"), ("details", Value.str "")] "details" =
      some (Value.str "") ∧
    format_response (.dict [("status", Value.str "error"), ("details", Value.str "")]) =
      .ok (.str "=== ERROR DETAILS ===\nStatus: error\nError: Unknown error occurred") ∧
    strContains "=== ERROR DETAILS ===\nStatus: error\nError: Unknown error occurred"
      "Details" = false :=
  ⟨rfl, rfl, rfl⟩

/-- C2 (amended): on every mapping classified as success the formatter
returns content in strict priority order — the raw `output` value if the
key is present, else the raw `message` value, else `str(result)`, else
`str(data)`, else the `=== REVIT STATUS ===` block when the lower-cased
status is `"active"` (with `Status: active` / `Health: healthy` lines for
an active/healthy mapping), else the mapping dumped as indented JSON; and
for every mapping with `status == "success"`, an `output` key, and a
health value that is a string when present, the result is exactly
`reply["output"]`.  (The unamended instance fails when a non-string
health is present; see `success_content_priority_cx`.) -/
theorem success_content_priority :
    (∀ (m : Obj) (st : String),
      pyLower (getD m "status" (.str "")) = .ok st →
      is_success m = .ok true →
      ((∀ v, lookupV m "output" = some v → format_response (.dict m) = .ok v) ∧
       (lookupV m "output" = none → ∀ v, lookupV m "message" = some v →
         format_response (.dict m) = .ok v) ∧
       (lookupV m "output" = none → lookupV m "message" = none →
         ∀ v, lookupV m "result" = some v →
         format_response (.dict m) = .ok (.str (pyStr v))) ∧
       (lookupV m "output" = none → lookupV m "message" = none →
         lookupV m "result" = none → ∀ v, lookupV m "data" = some v →
         format_response (.dict m) = .ok (.str (pyStr v))) ∧
       (lookupV m "output" = none → lookupV m "message" = none →
         lookupV m "result" = none → lookupV m "data" = none → st = "active" →
         format_response (.dict m) = .ok (.str (joinWith "\n" (revitStatusParts m))) ∧
         strStartsWith (joinWith "\n" (revitStatusParts m)) "=== REVIT STATUS ===" = true ∧
         (lookupV m "status" = some (.str "active") → "Status: active" ∈ revitStatusParts m) ∧
         (lookupV m "health" = some (.str "healthy") → "Health: healthy" ∈ revitStatusParts m)) ∧
       (lookupV m "output" = none → lookupV m "message" = none →
         lookupV m "result" = none → lookupV m "data" = none → st ≠ "active" →
         format_response (.dict m) = .ok (.str (jsonDump 0 (.dict m)))))) ∧
    (∀ (m : Obj) (v : Value), strOrAbsent m "health" = true →
      lookupV m "status" = some (.str "success") → lookupV m "output" = some v →
      format_response (.dict m) = .ok v) := by
  constructor
  · intro m st hst hsucc
    obtain ⟨st2, hl, hs2, hh2, hb⟩ := is_success_ok_elim m true hsucc
    rw [hst] at hs2
    injection hs2 with heq
    subst heq
    have hfr : format_response (.dict m) = .ok (successContent m st) := by
      rw [format_response_dict_eq m st hl hst hh2, if_pos hb.symm]
    refine ⟨fun v hv => ?_, fun h0 v hv => ?_, fun h0 h1 v hv => ?_,
      fun h0 h1 h2 v hv => ?_, fun h0 h1 h2 h3 hact => ?_, fun h0 h1 h2 h3 hne => ?_⟩
    · rw [hfr]; simp [successContent, hv]
    · rw [hfr]; simp [successContent, h0, hv]
    · rw [hfr]; simp [successContent, h0, h1, hv]
    · rw [hfr]; simp [successContent, h0, h1, h2, hv]
    · subst hact
      refine ⟨by rw [hfr]; simp [successContent, h0, h1, h2, h3], ?_, fun hlk => ?_, fun hlk => ?_⟩
      · obtain ⟨rest, hrest⟩ : ∃ rest,
            revitStatusParts m = "=== REVIT STATUS ===" :: rest := ⟨_, rfl⟩
        rw [hrest]
        exact strStartsWith_joinWith _ _
      · have he : "Status: " ++ pyStr (getD m "status" (.str "Unknown")) = "Status: active" := by
          unfold getD; rw [hlk]; rfl
        rw [← he]
        simp only [revitStatusParts]
        exact List.mem_append_left _ (List.mem_append_left _ (List.mem_append_left _
          (List.mem_append_left _ (List.mem_cons_of_mem _ (List.mem_cons_self _ _)))))
      · have he : "Health: " ++ pyStr (getD m "health" (.str "Unknown")) = "Health: healthy" := by
          unfold getD; rw [hlk]; rfl
        rw [← he]
        simp only [revitStatusParts]
        exact List.mem_append_left _ (List.mem_append_left _ (List.mem_append_left _
          (List.mem_append_left _ (List.mem_cons_of_mem _ (List.mem_cons_of_mem _
            (List.mem_cons_self _ _))))))
    · have hbe : (st == "active") = false := beq_eq_false_iff_ne.mpr hne
      rw [hfr]
      simp [successContent, h0, h1, h2, h3, hbe]
  · intro m v hh hstat hout
    have hst : pyLower (getD m "status" (.str "")) = .ok "success" := by
      unfold getD; rw [hstat]; rfl
    obtain ⟨t, ht2⟩ := getD_str_of_strOrAbsent m "health" "" hh
    have hpt : pyLower (getD m "health" (.str "")) = .ok (strLower t) := by rw [ht2]; rfl
    have hfr : format_response (.dict m) = .ok (successContent m "success") := by
      rw [format_response_dict_eq m "success" (strLower t) hst hpt]
      rfl
    rw [hfr]
    simp [successContent, hout]

/-- Witness for C2 at a concrete success mapping carrying an output key. -/
theorem success_content_priority_witness :
    format_response (.dict [("status", Value.str "success"), ("output", Value.str "hi")]) =
      .ok (.str "hi") :=
  success_content_priority.2 _ _ rfl rfl rfl

/-- Counterexample to C2's unconditioned instance: with `status ==
"success"`, an `output` key, and a non-string `health` value, the
unconditional `.lower()` on health raises, so the formatter does not
return `reply["output"]`. -/
theorem success_content_priority_cx :
    lookupV [("status", Value.str "success"), ("health", Value.int 0),
        ("output", Value.str "x")] "status" = some (Value.str "success") ∧
    lookupV [("status", Value.str "success"), ("health", Value.int 0),
        ("output", Value.str "x")] "output" = some (Value.str "x") ∧
    format_response (.dict [("status", Value.str "success"), ("health", Value.int 0),
        ("output", Value.str "x")]) =
      .error "AttributeError: object has no attribute lower" :=
  ⟨rfl, rfl, rfl⟩
